import Mathlib

/-!
File transfer over a small-payload radio link (`src/main.c`).

A shallow embedding of the two protocol engines of `src/main.c`:

* `enviar_archivo` (sender): HEADER, a run of DATA packets, FIN;
* `recibir_archivo` (receiver): the packet-driven loop that rebuilds the file.

Conventions of the embedding.

* A byte is a `Nat` (bytes are only copied, never computed with).
* `uint32_t` values are `Nat` with an explicit `% U32` wherever the C++
  arithmetic can wrap (`seq++`, `bloquesRecibidos++`, the block-count formula,
  `static_cast<uint32_t>(tam)`).
* The radio driver, the GPIO driver and the file streams are external; they
  are modelled by explicit state:
  - the sender's radio is the list of packets handed to `radio.write`
    (attempted sends, in order) and an outcome function `ok : Nat → Bool`
    giving the result of the `i`-th call of `radio.write`;
  - the input stream is `ArchivoTx`: whether it opened, the size `tellg`
    reported, and the bytes successive `read` calls deliver;
  - the receiver's radio is the list of packets that arrive;
  - the output file is the list of bytes stored at `rutaOut`, and the
    `std::ofstream fout` object is its two observable flags
    (`is_open()`, fail state).
* Writes to a good, open output stream are assumed to succeed (no disk-full
  model); buffered bytes count as stored.
-/

namespace Ie0527

/-! ## Packet structure -/

/-- The tag `TIPO_HEADER` (0x01). -/
def TIPO_HEADER : Nat := 1

/-- The tag `TIPO_DATA` (0x02). -/
def TIPO_DATA : Nat := 2

/-- The tag `TIPO_FIN` (0x03). -/
def TIPO_FIN : Nat := 3

/-- The payload size `sizeof(p.data)`, that is 27. -/
def DATA_BYTES : Nat := 27

/-- The modulus of `uint32_t` arithmetic, `2^32`. -/
def U32 : Nat := 4294967296

/-- The packed `struct Paquete`: `tipo` is a `uint8_t`, `seq` a `uint32_t`,
`data` the 27-byte array. -/
structure Paquete where
  tipo : Nat
  seq : Nat
  data : List Nat
deriving DecidableEq

/-- The payload left by `std::memset(&p, 0, sizeof(p))`: 27 zero bytes. -/
def ceros : List Nat := List.replicate DATA_BYTES 0

/-- The array `p.data` after `memset` to zero followed by a `read` that
delivered the bytes `leido` (at most 27): the bytes read, then zeros. -/
def rellenar (leido : List Nat) : List Nat :=
  leido ++ List.replicate (DATA_BYTES - leido.length) 0

/-! ## LED -/

/-- The function `led_toggle`: reads the LED level and writes its negation. -/
def led_toggle (led : Bool) : Bool := !led

/-- The function `led_on`: writes level 1. -/
def led_on (_led : Bool) : Bool := true

/-! ## Sender -/

/-- What `enviar_archivo` sees of the input stream `fin`: `abre` is
`fin.is_open()`, `tam` is the value of `fin.tellg()` after seeking to the end
(`-1` on failure), `contenido` the bytes that the following `read` calls
deliver in order. For an undisturbed regular file `tam = contenido.length`. -/
structure ArchivoTx where
  abre : Bool
  tam : Int
  contenido : List Nat

/-- The sender-side world: the packets handed to `radio.write` so far, and the
LED level. -/
structure TxMundo where
  enviados : List Paquete
  led : Bool
deriving DecidableEq

/-- The call `radio.write(&p, sizeof(p))`: the packet is attempted (logged) and
the outcome of this attempt is `ok i`, where `i` counts the earlier attempts. -/
def radio_write (ok : Nat → Bool) (m : TxMundo) (p : Paquete) : Bool × TxMundo :=
  (ok m.enviados.length, { m with enviados := m.enviados ++ [p] })

/-- How the DATA loop of `enviar_archivo` is left: normally (condition false or
`break`) with the current `seq`, or by `return false` after a failed send. -/
inductive SalidaBucle where
  | fin (seq : Nat)
  | aborta
deriving DecidableEq

/-- The loop `while (enviadosTotal < tam)` of `enviar_archivo`. `resto` is what
the stream still has to deliver. The first argument bounds the number of
iterations; `none` means the bound was reached. -/
def bucleData (ok : Nat → Bool) :
    Nat → Nat → List Nat → Nat → Nat → TxMundo → Option (SalidaBucle × TxMundo)
  | 0, _, _, _, _, _ => none
  | fuel + 1, tam, resto, seq, enviadosTotal, m =>
    if enviadosTotal < tam then
      -- fin.read(p.data, DATA_BYTES); leidos = fin.gcount()
      let leido := resto.take DATA_BYTES
      let p : Paquete := { tipo := TIPO_DATA, seq := seq, data := rellenar leido }
      let leidos := leido.length
      if leidos ≤ 0 then
        some (.fin seq, m)
      else
        let r := radio_write ok m p
        if !r.1 then
          some (.aborta, r.2)
        else
          let seq1 := (seq + 1) % U32
          let m2 : TxMundo :=
            if seq1 % 4 = 0 then { r.2 with led := led_toggle r.2.led } else r.2
          bucleData ok fuel tam (resto.drop DATA_BYTES) seq1 (enviadosTotal + leidos) m2
    else
      some (.fin seq, m)

/-- The function `enviar_archivo`. The result is the returned `bool` and the
final world; `none` would mean the iteration bound of the DATA loop was hit
(it never is, see `enviar_archivo_total`). The world starts with no packet
attempted. -/
def enviar_archivo (ok : Nat → Bool) (f : ArchivoTx) (led : Bool) :
    Option (Bool × TxMundo) :=
  let m0 : TxMundo := { enviados := [], led := led }
  if !f.abre then
    some (false, m0)
  else if f.tam ≤ 0 then
    some (false, m0)
  else
    -- 1) HEADER, p.seq = static_cast<uint32_t>(tam)
    let p : Paquete := { tipo := TIPO_HEADER, seq := f.tam.toNat % U32, data := ceros }
    let r := radio_write ok m0 p
    if !r.1 then
      some (false, r.2)
    else
      -- 2) DATA
      match bucleData ok (f.tam.toNat + 1) f.tam.toNat f.contenido 0 0 r.2 with
      | none => none
      | some (.aborta, m2) => some (false, m2)
      | some (.fin seq, m2) =>
        -- 3) FIN
        let q : Paquete := { tipo := TIPO_FIN, seq := seq, data := ceros }
        let r3 := radio_write ok m2 q
        if !r3.1 then
          some (false, r3.2)
        else
          some (true, { r3.2 with led := led_on r3.2.led })

/-! ## Receiver -/

/-- The observable flags of the `std::ofstream fout`: `abierto` is
`is_open()`, `falla` is the fail state (`!good()`). -/
structure Ofstream where
  abierto : Bool
  falla : Bool
deriving DecidableEq

/-- The call `fout.open(rutaOut, std::ios::binary)` together with its effect
on the stored file. `basic_filebuf::open` returns a null pointer when the
buffer is already open, and `basic_ofstream::open` then calls
`setstate(failbit)`: the file is not touched and stays associated with the
stream. On a closed stream the operating system decides (`puede`): success
truncates the file and clears the error state, failure sets `failbit`. -/
def fout_open (puede : Bool) (s : Ofstream) (archivo : List Nat) :
    Ofstream × List Nat :=
  if s.abierto then
    ({ s with falla := true }, archivo)
  else if puede then
    ({ abierto := true, falla := false }, [])
  else
    ({ s with falla := true }, archivo)

/-- The call `fout.write(p.data, sizeof(p.data))`. `write` is an unformatted
output function: it builds a sentry, and when the stream is not good the
sentry fails and nothing is written. -/
def fout_write (s : Ofstream) (archivo : List Nat) (bytes : List Nat) :
    Ofstream × List Nat :=
  if s.falla then
    (s, archivo)
  else if s.abierto then
    (s, archivo ++ bytes)
  else
    ({ s with falla := true }, archivo)

/-- The calls `fout.flush(); fout.close()`: pending bytes are already counted
as stored, the file is released; closing a stream that is not open sets
`failbit`. -/
def fout_close (s : Ofstream) : Ofstream :=
  if s.abierto then { s with abierto := false } else { s with falla := true }

/-- The block of `recibir_archivo` commented "Truncar a tamEsperado":
`std::ofstream truncFile(rutaOut, in | out | binary)` opens the existing file
for update without truncating it, `seekp(tamEsperado)` only moves the put
position, and `flush`/`close` have nothing to write. No byte is written and
the length of the file is not changed, whatever `tamEsperado` is. -/
def truncFile_seekp (archivo : List Nat) (_tamEsperado : Nat) : List Nat :=
  archivo

/-- The local state of `recibir_archivo` together with the file at `rutaOut`
and the LED level. -/
structure RxEstado where
  headerRecibido : Bool
  tamEsperado : Nat
  bloquesEsperados : Nat
  bloquesRecibidos : Nat
  fout : Ofstream
  archivo : List Nat
  led : Bool
deriving DecidableEq

/-- The expression `(tamEsperado + DATA_BYTES - 1) / DATA_BYTES` on `uint32_t`
operands: the sum and the difference wrap modulo `2^32`. -/
def bloquesEsperadosDe (tamEsperado : Nat) : Nat :=
  (((tamEsperado + DATA_BYTES) % U32 + U32 - 1) % U32) / DATA_BYTES

/-- The outcome of one iteration of the `while (true)` loop of
`recibir_archivo`: the loop goes on, or the function returns. -/
inductive Paso where
  | sigue (e : RxEstado)
  | retorna (r : Bool) (e : RxEstado)
deriving DecidableEq

/-- One iteration of the loop of `recibir_archivo`, after `radio.read` has
delivered the packet `p`. `puede` tells whether the operating system lets
`rutaOut` be opened for writing. -/
def procesar (puede : Bool) (e : RxEstado) (p : Paquete) : Paso :=
  if p.tipo = TIPO_HEADER then
    let led1 := led_toggle e.led
    let tamEsperado := p.seq
    let bloquesEsperados := bloquesEsperadosDe tamEsperado
    let r := fout_open puede e.fout e.archivo
    if !r.1.abierto then
      .retorna false { e with tamEsperado := tamEsperado, bloquesEsperados := bloquesEsperados,
                              fout := r.1, archivo := r.2, led := led1 }
    else
      .sigue { headerRecibido := true, tamEsperado := tamEsperado,
               bloquesEsperados := bloquesEsperados, bloquesRecibidos := 0,
               fout := r.1, archivo := r.2, led := led1 }
  else if p.tipo = TIPO_DATA ∧ e.headerRecibido = true then
    let r := fout_write e.fout e.archivo p.data
    let n := (e.bloquesRecibidos + 1) % U32
    .sigue { e with bloquesRecibidos := n, fout := r.1, archivo := r.2,
                    led := if n % 4 = 0 then led_toggle e.led else e.led }
  else if p.tipo = TIPO_FIN ∧ e.headerRecibido = true then
    let s := fout_close e.fout
    let a := truncFile_seekp e.archivo e.tamEsperado
    .retorna true { e with fout := s, archivo := a, led := led_on e.led }
  else
    -- "Paquete inesperado": only a diagnostic is printed
    .sigue e

/-- The result of an invocation of `recibir_archivo` on a finite run of
arriving packets: it returned, or it consumed them all and is still polling
`radio.available()`. -/
inductive Recepcion where
  | retorna (r : Bool) (e : RxEstado)
  | espera (e : RxEstado)
deriving DecidableEq

/-- The loop `while (true)` of `recibir_archivo` over the packets that
arrive. -/
def recibir_bucle (puede : Bool) : RxEstado → List Paquete → Recepcion
  | e, [] => .espera e
  | e, p :: ps =>
    match procesar puede e p with
    | .sigue e1 => recibir_bucle puede e1 ps
    | .retorna r e1 => .retorna r e1

/-- The initial local state of `recibir_archivo`: no header, counters at zero,
`fout` default-constructed (closed, good). -/
def estadoInicial (archivo : List Nat) (led : Bool) : RxEstado :=
  { headerRecibido := false, tamEsperado := 0, bloquesEsperados := 0,
    bloquesRecibidos := 0, fout := { abierto := false, falla := false },
    archivo := archivo, led := led }

/-- The function `recibir_archivo`: `archivo` is what `rutaOut` holds
beforehand, `entrada` the packets that arrive. -/
def recibir_archivo (puede : Bool) (archivo : List Nat) (led : Bool)
    (entrada : List Paquete) : Recepcion :=
  recibir_bucle puede (estadoInicial archivo led) entrada

/-- The outcome function of a radio on which every send succeeds. -/
def siempre : Nat → Bool := fun _ => true

/-- The `n` DATA packets that carry the successive 27-byte pieces of `resto`,
zero-padded, numbered from `seq` on (modulo `2^32`): the packet sequence the
specification describes for the DATA phase. -/
def fragmentos (seq : Nat) (resto : List Nat) (n : Nat) : List Paquete :=
  (List.range n).map fun i =>
    { tipo := TIPO_DATA, seq := (seq + i) % U32,
      data := rellenar ((resto.drop (DATA_BYTES * i)).take DATA_BYTES) }

/-- The packets of a complete transfer of a stream that declares `tam` bytes
and delivers `b`: HEADER carrying the size, the fragments, FIN carrying their
number (all as `uint32_t`). -/
def transmision (tam : Nat) (b : List Nat) : List Paquete :=
  { tipo := TIPO_HEADER, seq := tam % U32, data := ceros } ::
    (fragmentos 0 b ((min tam b.length + 26) / 27) ++
      [{ tipo := TIPO_FIN, seq := ((min tam b.length + 26) / 27) % U32, data := ceros }])

/-- Number of iterations of the DATA loop when every send succeeds: the
27-byte pieces needed for what is both still declared and still readable. -/
def vueltas (tam enviadosTotal : Nat) (resto : List Nat) : Nat :=
  (min (tam - enviadosTotal) resto.length + 26) / 27

/-! ## Auxiliary facts -/

theorem fragmentos_length (seq : Nat) (resto : List Nat) (n : Nat) :
    (fragmentos seq resto n).length = n := by
  simp [fragmentos]

theorem fragmentos_succ (seq : Nat) (resto : List Nat) (n : Nat) :
    fragmentos seq resto (n + 1) =
      { tipo := TIPO_DATA, seq := seq % U32, data := rellenar (resto.take DATA_BYTES) } ::
        fragmentos (seq + 1) (resto.drop DATA_BYTES) n := by
  unfold fragmentos
  rw [List.range_succ_eq_map, List.map_cons, List.map_map]
  congr 1
  apply List.map_congr_left
  intro i _
  simp only [Function.comp, List.drop_drop, Nat.mul_succ]
  have h1 : seq + 1 + i = seq + (i + 1) := by omega
  have h2 : DATA_BYTES + DATA_BYTES * i = DATA_BYTES * i + DATA_BYTES := by omega
  simp [h1, h2, Nat.succ_eq_add_one]

theorem fragmentos_mod (seq : Nat) (resto : List Nat) (n : Nat) :
    fragmentos (seq % U32) resto n = fragmentos seq resto n := by
  unfold fragmentos
  apply List.map_congr_left
  intro i _
  simp [Nat.mod_add_mod]

theorem fragmentos_take (seq : Nat) (resto : List Nat) (n k : Nat) (h : k ≤ n) :
    (fragmentos seq resto n).take k = fragmentos seq resto k := by
  unfold fragmentos
  rw [← List.map_take, List.take_range, Nat.min_eq_left h]

/-- When the sends of the loop all succeed, the loop ends normally after
`vueltas` iterations, having attempted exactly the corresponding fragments. -/
theorem bucleData_exito (ok : Nat → Bool) :
    ∀ (n fuel tam : Nat) (resto : List Nat) (seq env : Nat) (m : TxMundo),
      seq < U32 → n < fuel → n = vueltas tam env resto →
      (∀ i, i < n → ok (m.enviados.length + i) = true) →
      ∃ led, bucleData ok fuel tam resto seq env m =
        some (.fin ((seq + n) % U32),
          { enviados := m.enviados ++ fragmentos seq resto n, led := led }) := by
  intro n
  induction n with
  | zero =>
    intro fuel tam resto seq env m hseq hfuel hn _
    obtain ⟨f, rfl⟩ : ∃ f, fuel = f + 1 := ⟨fuel - 1, by omega⟩
    refine ⟨m.led, ?_⟩
    have hs : (seq + 0) % U32 = seq := by simpa using Nat.mod_eq_of_lt hseq
    simp only [vueltas] at hn
    simp only [bucleData, hs, fragmentos, List.range_zero, List.map_nil, List.append_nil]
    by_cases h : env < tam
    · have hl : resto.length = 0 := by omega
      have hr : resto = [] := List.length_eq_zero.mp hl
      subst hr
      simp [h]
    · simp [h]
  | succ k ih =>
    intro fuel tam resto seq env m hseq hfuel hn hok
    obtain ⟨f, rfl⟩ : ∃ f, fuel = f + 1 := ⟨fuel - 1, by omega⟩
    simp only [vueltas] at hn
    have h : env < tam := by omega
    have hl : 0 < resto.length := by omega
    have hlt : (resto.take DATA_BYTES).length = min 27 resto.length := by
      simp [DATA_BYTES]
    have hw : ok m.enviados.length = true := by simpa using hok 0 (by omega)
    have hmod : (seq + 1) % U32 < U32 := Nat.mod_lt _ (by decide)
    have hk : k = vueltas tam (env + (resto.take DATA_BYTES).length)
        (resto.drop DATA_BYTES) := by
      have hlt2 : (List.take 27 resto).length = min 27 resto.length := by simp
      simp only [vueltas, List.length_drop, DATA_BYTES]
      omega
    have step : ∀ m2 : TxMundo,
        m2.enviados = m.enviados ++
          [{ tipo := TIPO_DATA, seq := seq, data := rellenar (resto.take DATA_BYTES) }] →
        ∃ led, bucleData ok f tam (resto.drop DATA_BYTES) ((seq + 1) % U32)
            (env + (resto.take DATA_BYTES).length) m2 =
          some (.fin ((seq + (k + 1)) % U32),
            { enviados := m.enviados ++ fragmentos seq resto (k + 1), led := led }) := by
      intro m2 hm2
      obtain ⟨led, hled⟩ := ih f tam (resto.drop DATA_BYTES) ((seq + 1) % U32)
        (env + (resto.take DATA_BYTES).length) m2 hmod (by omega) hk (by
          intro i hi
          have := hok (i + 1) (by omega)
          rw [hm2]
          simpa [Nat.add_assoc, Nat.add_comm 1 i] using this)
      refine ⟨led, ?_⟩
      rw [hled, hm2, fragmentos_succ, fragmentos_mod, Nat.mod_eq_of_lt hseq]
      simp [Nat.mod_add_mod, Nat.add_assoc, Nat.add_comm 1 k]
    have hpos : ¬ ((resto.take DATA_BYTES).length ≤ 0) := by rw [hlt]; omega
    simp only [bucleData, h, if_true, hpos, if_false, radio_write, hw, Bool.not_true]
    exact step _ (by split <;> rfl)

/-- When the send of fragment `k` is the first of the loop to fail, the loop
returns `false` right after that attempt. -/
theorem bucleData_falla (ok : Nat → Bool) :
    ∀ (k fuel tam : Nat) (resto : List Nat) (seq env : Nat) (m : TxMundo),
      seq < U32 → k < fuel → k < vueltas tam env resto →
      (∀ i, i < k → ok (m.enviados.length + i) = true) →
      ok (m.enviados.length + k) = false →
      ∃ led, bucleData ok fuel tam resto seq env m =
        some (.aborta,
          { enviados := m.enviados ++ fragmentos seq resto (k + 1), led := led }) := by
  intro k
  induction k with
  | zero =>
    intro fuel tam resto seq env m hseq hfuel hn _ hbad
    obtain ⟨f, rfl⟩ : ∃ f, fuel = f + 1 := ⟨fuel - 1, by omega⟩
    simp only [vueltas] at hn
    have h : env < tam := by omega
    have hlt : (resto.take DATA_BYTES).length = min 27 resto.length := by
      simp [DATA_BYTES]
    have hpos : ¬ ((resto.take DATA_BYTES).length ≤ 0) := by rw [hlt]; omega
    have hw : ok m.enviados.length = false := by simpa using hbad
    refine ⟨m.led, ?_⟩
    simp only [bucleData, h, if_true, hpos, if_false, radio_write, hw, Bool.not_false]
    rw [fragmentos_succ, Nat.mod_eq_of_lt hseq]
    simp [fragmentos]
  | succ k ih =>
    intro fuel tam resto seq env m hseq hfuel hn hok hbad
    obtain ⟨f, rfl⟩ : ∃ f, fuel = f + 1 := ⟨fuel - 1, by omega⟩
    simp only [vueltas] at hn
    have h : env < tam := by omega
    have hlt : (resto.take DATA_BYTES).length = min 27 resto.length := by
      simp [DATA_BYTES]
    have hpos : ¬ ((resto.take DATA_BYTES).length ≤ 0) := by rw [hlt]; omega
    have hw : ok m.enviados.length = true := by simpa using hok 0 (by omega)
    have hmod : (seq + 1) % U32 < U32 := Nat.mod_lt _ (by decide)
    have hk : k < vueltas tam (env + (resto.take DATA_BYTES).length)
        (resto.drop DATA_BYTES) := by
      have hlt2 : (List.take 27 resto).length = min 27 resto.length := by simp
      simp only [vueltas, List.length_drop, DATA_BYTES]
      omega
    have step : ∀ m2 : TxMundo,
        m2.enviados = m.enviados ++
          [{ tipo := TIPO_DATA, seq := seq, data := rellenar (resto.take DATA_BYTES) }] →
        ∃ led, bucleData ok f tam (resto.drop DATA_BYTES) ((seq + 1) % U32)
            (env + (resto.take DATA_BYTES).length) m2 =
          some (.aborta,
            { enviados := m.enviados ++ fragmentos seq resto (k + 1 + 1), led := led }) := by
      intro m2 hm2
      obtain ⟨led, hled⟩ := ih f tam (resto.drop DATA_BYTES) ((seq + 1) % U32)
        (env + (resto.take DATA_BYTES).length) m2 hmod (by omega) hk (by
          intro i hi
          have := hok (i + 1) (by omega)
          rw [hm2]
          simpa [Nat.add_assoc, Nat.add_comm 1 i] using this) (by
          rw [hm2]
          simpa [Nat.add_assoc, Nat.add_comm 1 k] using hbad)
      refine ⟨led, ?_⟩
      rw [hled, hm2, fragmentos_succ seq resto (k + 1), fragmentos_mod,
        Nat.mod_eq_of_lt hseq]
      simp
    simp only [bucleData, h, if_true, hpos, if_false, radio_write, hw, Bool.not_true]
    exact step _ (by split <;> rfl)

/-- The iteration bound is never reached: with more fuel than undelivered
declared bytes the loop always produces a result, whatever the radio does. -/
theorem bucleData_total (ok : Nat → Bool) :
    ∀ (fuel tam : Nat) (resto : List Nat) (seq env : Nat) (m : TxMundo),
      tam - env < fuel → (bucleData ok fuel tam resto seq env m).isSome = true := by
  intro fuel
  induction fuel with
  | zero => intro tam resto seq env m h; omega
  | succ f ih =>
    intro tam resto seq env m h
    simp only [bucleData]
    split
    · split
      · rfl
      · split
        · rfl
        · apply ih
          omega
    · rfl

/-- The function `enviar_archivo` always returns: the model never runs out of
iterations. -/
theorem enviar_archivo_total (ok : Nat → Bool) (f : ArchivoTx) (led : Bool) :
    (enviar_archivo ok f led).isSome = true := by
  unfold enviar_archivo
  simp only []
  split
  · rfl
  · split
    · rfl
    · split
      · rfl
      · have h := bucleData_total ok (f.tam.toNat + 1) f.tam.toNat f.contenido 0 0
          (radio_write ok { enviados := [], led := led }
            { tipo := TIPO_HEADER, seq := f.tam.toNat % U32, data := ceros }).2 (by omega)
        split
        · rename_i heq; rw [heq] at h; simp at h
        · rfl
        · split <;> rfl

theorem vueltas_cero (tam : Nat) (b : List Nat) :
    vueltas tam 0 b = (min tam b.length + 26) / 27 := by
  simp [vueltas]

theorem transmision_length (tam : Nat) (b : List Nat) :
    (transmision tam b).length = (min tam b.length + 26) / 27 + 2 := by
  simp [transmision, fragmentos_length]

/-- Sender, every attempt succeeding: `true` is returned after exactly the
packets of `transmision`. -/
theorem enviar_archivo_exito (ok : Nat → Bool) (f : ArchivoTx) (led : Bool)
    (ha : f.abre = true) (ht : 0 < f.tam)
    (hok : ∀ i, i < (min f.tam.toNat f.contenido.length + 26) / 27 + 2 → ok i = true) :
    enviar_archivo ok f led =
      some (true, { enviados := transmision f.tam.toNat f.contenido, led := true }) := by
  have hT : 0 < f.tam.toNat := by omega
  have h0 : ok 0 = true := hok 0 (by omega)
  obtain ⟨l1, hl1⟩ := bucleData_exito ok ((min f.tam.toNat f.contenido.length + 26) / 27)
    (f.tam.toNat + 1) f.tam.toNat f.contenido 0 0
    { enviados := [{ tipo := TIPO_HEADER, seq := f.tam.toNat % U32, data := ceros }],
      led := led }
    (by decide) (by omega) (vueltas_cero _ _).symm (by
      intro i hi
      have := hok (1 + i) (by omega)
      simpa using this)
  have hfin : ok ((min f.tam.toNat f.contenido.length + 26) / 27 + 1) = true :=
    hok _ (by omega)
  have hnot : ¬ (f.tam ≤ 0) := by omega
  simp only [enviar_archivo, ha, Bool.not_true, hnot, if_false, radio_write, List.length_nil,
    h0, List.nil_append, hl1, List.length_append, List.length_cons, fragmentos_length,
    Nat.zero_add, Nat.add_comm 1, hfin, led_on, transmision, List.cons_append,
    List.append_assoc, Bool.false_eq_true]

/-- Sender, attempt number `k` (counted from 0) being the first to fail:
`false` is returned after exactly the first `k + 1` packets of
`transmision`. -/
theorem enviar_archivo_falla (ok : Nat → Bool) (f : ArchivoTx) (led : Bool) (k : Nat)
    (ha : f.abre = true) (ht : 0 < f.tam)
    (hk : k < (min f.tam.toNat f.contenido.length + 26) / 27 + 2)
    (hok : ∀ i, i < k → ok i = true) (hbad : ok k = false) :
    ∃ led1, enviar_archivo ok f led =
      some (false,
        { enviados := (transmision f.tam.toNat f.contenido).take (k + 1), led := led1 }) := by
  have hT : 0 < f.tam.toNat := by omega
  have hnot : ¬ (f.tam ≤ 0) := by omega
  rcases Nat.eq_zero_or_pos k with hk0 | hkpos
  · subst hk0
    refine ⟨led, ?_⟩
    simp [enviar_archivo, ha, hnot, radio_write, hbad, transmision]
  · have h0 : ok 0 = true := hok 0 hkpos
    obtain ⟨j, rfl⟩ : ∃ j, k = j + 1 := ⟨k - 1, by omega⟩
    by_cases hj : j < (min f.tam.toNat f.contenido.length + 26) / 27
    · obtain ⟨l1, hl1⟩ := bucleData_falla ok j (f.tam.toNat + 1) f.tam.toNat f.contenido 0 0
        { enviados := [{ tipo := TIPO_HEADER, seq := f.tam.toNat % U32, data := ceros }],
          led := led }
        (by decide) (by omega) (by rw [vueltas_cero]; exact hj) (by
          intro i hi
          have := hok (1 + i) (by omega)
          simpa using this) (by simpa [Nat.add_comm 1 j] using hbad)
      refine ⟨l1, ?_⟩
      have htake : (transmision f.tam.toNat f.contenido).take (j + 1 + 1) =
          { tipo := TIPO_HEADER, seq := f.tam.toNat % U32, data := ceros } ::
            fragmentos 0 f.contenido (j + 1) := by
        simp only [transmision, List.take_succ_cons]
        rw [List.take_append_of_le_length (by rw [fragmentos_length]; omega),
          fragmentos_take _ _ _ _ (by omega)]
      simp only [enviar_archivo, ha, Bool.not_true, hnot, if_false, radio_write,
        List.length_nil, h0, List.nil_append, hl1, htake, List.cons_append,
        Bool.false_eq_true]
    · have hjn : j = (min f.tam.toNat f.contenido.length + 26) / 27 := by omega
      obtain ⟨l1, hl1⟩ := bucleData_exito ok j
        (f.tam.toNat + 1) f.tam.toNat f.contenido 0 0
        { enviados := [{ tipo := TIPO_HEADER, seq := f.tam.toNat % U32, data := ceros }],
          led := led }
        (by decide) (by omega) (by rw [vueltas_cero]; exact hjn) (by
          intro i hi
          have := hok (1 + i) (by omega)
          simpa using this)
      refine ⟨l1, ?_⟩
      have htake : (transmision f.tam.toNat f.contenido).take (j + 1 + 1) =
          transmision f.tam.toNat f.contenido := by
        apply List.take_of_length_le
        rw [transmision_length]; omega
      have hfin : ok (j + 1) = false := hbad
      rw [htake]
      simp only [enviar_archivo, ha, Bool.not_true, hnot, if_false, radio_write,
        List.length_nil, h0, List.nil_append, hl1, List.length_append, List.length_cons,
        fragmentos_length, Nat.zero_add, Nat.add_comm 1, hfin, transmision,
        List.cons_append, List.append_assoc, Bool.false_eq_true, Bool.not_false, if_true,
        ← hjn]

/-- The `uint`-free ceiling: `ceil(S / 27)` over the rationals is
`(S + 26) / 27` in natural-number division. -/
theorem techo27 (S : Nat) : ⌈(S : ℚ) / 27⌉₊ = (S + 26) / 27 := by
  apply le_antisymm
  · rw [Nat.ceil_le, div_le_iff₀ (by norm_num)]
    have h : S ≤ ((S + 26) / 27) * 27 := by omega
    exact_mod_cast h
  · have h := Nat.le_ceil ((S : ℚ) / 27)
    rw [div_le_iff₀ (by norm_num)] at h
    have h2 : S ≤ ⌈(S : ℚ) / 27⌉₊ * 27 := by exact_mod_cast h
    omega

/-- Sender, precondition not met: `false` and an untouched world. -/
theorem enviar_archivo_rechaza (ok : Nat → Bool) (f : ArchivoTx) (led : Bool)
    (h : f.abre = false ∨ f.tam ≤ 0) :
    enviar_archivo ok f led = some (false, { enviados := [], led := led }) := by
  unfold enviar_archivo
  rcases h with h | h
  · simp [h]
  · simp [h]

/-! ## Sender claims -/

/-- C2. For a file of `S` bytes, `0 < S < 2^32`, whose reads deliver the full
content, with every send succeeding, `enviar_archivo` returns `true` and
attempts exactly: one HEADER with `seq = S`; then `n = ceil(S / 27)` DATA
packets, the `i`-th with `seq = i` and payload the file bytes from `27 * i`
(at most 27 of them) followed by zero bytes up to 27; then one FIN with
`seq = n`. When 27 divides `S`, `n = S / 27`. -/
theorem C2_secuencia_emisor (b : List Nat) (led : Bool)
    (hpos : 0 < b.length) (hlt : b.length < 2 ^ 32) :
    ∃ m, enviar_archivo siempre ⟨true, (b.length : Int), b⟩ led = some (true, m) ∧
      m.enviados =
        ({ tipo := TIPO_HEADER, seq := b.length, data := List.replicate 27 0 } : Paquete) ::
          ((List.range ⌈(b.length : ℚ) / 27⌉₊).map (fun i =>
              ({ tipo := TIPO_DATA, seq := i,
                 data := (b.drop (27 * i)).take 27 ++
                   List.replicate (27 - ((b.drop (27 * i)).take 27).length) 0 } : Paquete))
            ++ [{ tipo := TIPO_FIN, seq := ⌈(b.length : ℚ) / 27⌉₊,
                  data := List.replicate 27 0 }]) ∧
      (27 ∣ b.length → ⌈(b.length : ℚ) / 27⌉₊ = b.length / 27) := by
  have hex := enviar_archivo_exito siempre ⟨true, (b.length : Int), b⟩ led rfl
    (by simpa using hpos) (fun _ _ => rfl)
  refine ⟨_, hex, ?_, ?_⟩
  · have hU : b.length < U32 := by simpa [U32] using hlt
    have hn : (b.length + 26) / 27 < U32 := by omega
    simp only [transmision, Int.toNat_ofNat, Nat.min_self, techo27,
      Nat.mod_eq_of_lt hU, Nat.mod_eq_of_lt hn, ceros, DATA_BYTES]
    congr 2
    unfold fragmentos
    apply List.map_congr_left
    intro i hi
    have hi2 : i < U32 := by
      have := List.mem_range.mp hi
      omega
    simp [rellenar, DATA_BYTES, Nat.mod_eq_of_lt hi2]
  · intro hdiv
    rw [techo27]
    omega

/-- A witness for C2: a 28-byte file. -/
theorem C2_secuencia_emisor_witness :
    ∃ m, enviar_archivo siempre ⟨true, ((List.replicate 28 65).length : Int),
        List.replicate 28 65⟩ false = some (true, m) ∧
      m.enviados =
        ({ tipo := TIPO_HEADER, seq := (List.replicate 28 65).length,
           data := List.replicate 27 0 } : Paquete) ::
          ((List.range ⌈((List.replicate 28 65).length : ℚ) / 27⌉₊).map (fun i =>
              ({ tipo := TIPO_DATA, seq := i,
                 data := ((List.replicate 28 65).drop (27 * i)).take 27 ++
                   List.replicate
                     (27 - (((List.replicate 28 65).drop (27 * i)).take 27).length) 0 } :
                Paquete))
            ++ [{ tipo := TIPO_FIN, seq := ⌈((List.replicate 28 65).length : ℚ) / 27⌉₊,
                  data := List.replicate 27 0 }]) ∧
      (27 ∣ (List.replicate 28 65).length →
        ⌈((List.replicate 28 65).length : ℚ) / 27⌉₊ = (List.replicate 28 65).length / 27) :=
  C2_secuencia_emisor (List.replicate 28 65) false (by decide) (by decide)

/-- C9. When the file cannot be opened, or its measured size is zero or
negative, `enviar_archivo` returns `false` and no packet is attempted. -/
theorem C9_precondicion_emisor (ok : Nat → Bool) (f : ArchivoTx) (led : Bool)
    (h : f.abre = false ∨ f.tam ≤ 0) :
    enviar_archivo ok f led = some (false, { enviados := [], led := led }) :=
  enviar_archivo_rechaza ok f led h

/-- A witness for C9: an empty file that opens. -/
theorem C9_precondicion_emisor_witness :
    enviar_archivo siempre ⟨true, 0, []⟩ false = some (false, { enviados := [], led := false }) :=
  C9_precondicion_emisor siempre ⟨true, 0, []⟩ false (Or.inr (by decide))

/-- C4. Whatever the file and the outcomes of the radio, if attempt number `k`
(counted from 0) is the first to fail, then `enviar_archivo` returns `false`
and the packets it attempted are exactly the first `k + 1` packets of the
all-success sequence: the failed attempt is the last one. -/
theorem C4_aborto_emisor (ok : Nat → Bool) (f : ArchivoTx) (led : Bool) (k : Nat)
    (r : Bool × TxMundo) (hr : enviar_archivo siempre f led = some r)
    (hk : k < r.2.enviados.length)
    (hok : ∀ i, i < k → ok i = true) (hbad : ok k = false) :
    ∃ m, enviar_archivo ok f led = some (false, m) ∧
      m.enviados = r.2.enviados.take (k + 1) ∧ m.enviados.length = k + 1 := by
  by_cases hpre : f.abre = false ∨ f.tam ≤ 0
  · rw [enviar_archivo_rechaza siempre f led hpre] at hr
    cases hr
    simp at hk
  · have ha : f.abre = true := by
      cases hfa : f.abre
      · exact absurd (Or.inl hfa) hpre
      · rfl
    have ht : 0 < f.tam := by
      by_contra hc
      exact hpre (Or.inr (by omega))
    rw [enviar_archivo_exito siempre f led ha ht (fun _ _ => rfl)] at hr
    cases hr
    simp only [transmision_length] at hk
    obtain ⟨l1, hl1⟩ := enviar_archivo_falla ok f led k ha ht hk hok hbad
    refine ⟨_, hl1, rfl, ?_⟩
    simp only [List.length_take, transmision_length]
    omega

/-- A witness for C4: a 28-byte file whose second DATA send (attempt 2) is
the first to fail; HEADER and the two DATA packets were attempted, FIN was
not. -/
theorem C4_aborto_emisor_witness :
    ∃ m, enviar_archivo (fun i => decide (i ≠ 2)) ⟨true, 28, List.replicate 28 65⟩ false =
        some (false, m) ∧
      m.enviados =
        (true, ({ enviados := transmision 28 (List.replicate 28 65), led := true } :
          TxMundo)).2.enviados.take (2 + 1) ∧
      m.enviados.length = 2 + 1 :=
  C4_aborto_emisor (fun i => decide (i ≠ 2)) ⟨true, 28, List.replicate 28 65⟩ false 2
    (true, { enviados := transmision 28 (List.replicate 28 65), led := true })
    (by decide) (by decide) (by decide) (by decide)

/-- C3, as the code behaves. When the stream that declared `tam > 0` bytes
delivers fewer (`contenido.length < tam`) and every send succeeds, the DATA
loop stops at the first empty read, after the fragments of what was
delivered, and `enviar_archivo` then still sends one FIN carrying the number
of DATA packets sent (as a `uint32_t`) and returns `true`. -/
theorem C3_lectura_corta (f : ArchivoTx) (led : Bool)
    (ha : f.abre = true) (ht : 0 < f.tam) (hcorta : (f.contenido.length : Int) < f.tam) :
    ∃ m, enviar_archivo siempre f led = some (true, m) ∧
      m.enviados =
        ({ tipo := TIPO_HEADER, seq := f.tam.toNat % U32, data := ceros } : Paquete) ::
          (fragmentos 0 f.contenido ((f.contenido.length + 26) / 27) ++
            [{ tipo := TIPO_FIN, seq := ((f.contenido.length + 26) / 27) % U32,
               data := ceros }]) := by
  have hex := enviar_archivo_exito siempre f led ha ht (fun _ _ => rfl)
  refine ⟨_, hex, ?_⟩
  have hmin : min f.tam.toNat f.contenido.length = f.contenido.length := by omega
  simp only [transmision, hmin]

/-- A witness for C3: 28 bytes declared, 10 delivered. -/
theorem C3_lectura_corta_witness :
    ∃ m, enviar_archivo siempre ⟨true, 28, List.replicate 10 65⟩ false = some (true, m) ∧
      m.enviados =
        ({ tipo := TIPO_HEADER, seq := (28 : Int).toNat % U32, data := ceros } : Paquete) ::
          (fragmentos 0 (List.replicate 10 65) (((List.replicate 10 65).length + 26) / 27) ++
            [{ tipo := TIPO_FIN, seq := (((List.replicate 10 65).length + 26) / 27) % U32,
               data := ceros }]) :=
  C3_lectura_corta ⟨true, 28, List.replicate 10 65⟩ false rfl (by decide) (by decide)

/-- C3 as stated fails: the stream declared 28 bytes and delivers only 10, so
the second read yields zero bytes before 28 bytes were sent; with every send
succeeding the attempted packets are HEADER, one DATA and a FIN (with
`seq = 1`), and `true` is returned. -/
theorem C3_contraejemplo :
    enviar_archivo siempre ⟨true, 28, List.replicate 10 65⟩ false =
      some (true,
        { enviados :=
            [{ tipo := TIPO_HEADER, seq := 28, data := List.replicate 27 0 },
             { tipo := TIPO_DATA, seq := 0,
               data := List.replicate 10 65 ++ List.replicate 17 0 },
             { tipo := TIPO_FIN, seq := 1, data := List.replicate 27 0 }],
          led := true }) := by
  decide

/-! ## Receiver facts -/

/-- The payloads of the fragments of `b`, laid end to end, are `b` followed by
the zero padding of the last fragment. -/
theorem fragmentos_datos :
    ∀ (n : Nat) (b : List Nat) (seq : Nat), n = (b.length + 26) / 27 →
      ((fragmentos seq b n).map Paquete.data).flatten =
        b ++ List.replicate (27 * n - b.length) 0 := by
  intro n
  induction n with
  | zero =>
    intro b seq hn
    have hl : b.length = 0 := by omega
    have hb : b = [] := List.length_eq_zero.mp hl
    subst hb
    simp [fragmentos]
  | succ k ih =>
    intro b seq hn
    rw [fragmentos_succ, List.map_cons, List.flatten_cons]
    have hk : k = ((b.drop DATA_BYTES).length + 26) / 27 := by
      simp only [List.length_drop, DATA_BYTES]
      omega
    rw [ih (b.drop DATA_BYTES) (seq + 1) hk]
    simp only [rellenar, DATA_BYTES, List.length_take, List.length_drop]
    by_cases hb : 27 ≤ b.length
    · have h1 : 27 - min 27 b.length = 0 := by omega
      have h2 : 27 * k - (b.length - 27) = 27 * (k + 1) - b.length := by omega
      rw [h1, h2]
      simp only [List.replicate_zero, List.append_nil]
      rw [← List.append_assoc, List.take_append_drop]
    · have hk0 : k = 0 := by omega
      subst hk0
      have ht : b.take 27 = b := List.take_of_length_le (by omega)
      have hd : b.drop 27 = [] := List.drop_of_length_le (by omega)
      have h1 : 27 - min 27 b.length = 27 * (0 + 1) - b.length := by omega
      rw [ht, hd, h1]
      simp

theorem fragmentos_tipo (seq : Nat) (b : List Nat) (n : Nat) :
    ∀ p ∈ fragmentos seq b n, p.tipo = TIPO_DATA := by
  intro p hp
  simp only [fragmentos, List.mem_map] at hp
  obtain ⟨i, _, rfl⟩ := hp
  rfl

/-- A DATA packet in a session whose stream is open and good: the payload is
appended and the block counter advances (modulo `2^32`); `seq` is not read. -/
theorem procesar_data_en_sesion (puede : Bool) (e : RxEstado) (p : Paquete)
    (hp : p.tipo = TIPO_DATA) (hh : e.headerRecibido = true)
    (hf : e.fout = { abierto := true, falla := false }) :
    procesar puede e p =
      .sigue { e with bloquesRecibidos := (e.bloquesRecibidos + 1) % U32,
                      archivo := e.archivo ++ p.data,
                      led := if (e.bloquesRecibidos + 1) % U32 % 4 = 0
                        then led_toggle e.led else e.led } := by
  simp [procesar, hp, hh, hf, fout_write, TIPO_DATA, TIPO_HEADER]

/-- A run of DATA packets in a session whose stream is open and good. -/
theorem recibir_bucle_datos (puede : Bool) :
    ∀ (ds : List Paquete) (e : RxEstado) (resto : List Paquete),
      (∀ p ∈ ds, p.tipo = TIPO_DATA) → e.headerRecibido = true →
      e.fout = { abierto := true, falla := false } → e.bloquesRecibidos < U32 →
      ∃ led, recibir_bucle puede e (ds ++ resto) =
        recibir_bucle puede
          { e with bloquesRecibidos := (e.bloquesRecibidos + ds.length) % U32,
                   archivo := e.archivo ++ (ds.map Paquete.data).flatten,
                   led := led } resto := by
  intro ds
  induction ds with
  | nil =>
    intro e resto _ _ _ hb
    refine ⟨e.led, ?_⟩
    simp [Nat.mod_eq_of_lt hb]
  | cons d ds ih =>
    intro e resto hd hh hf hb
    have hd1 : d.tipo = TIPO_DATA := hd d (List.mem_cons_self _ _)
    obtain ⟨led, hled⟩ := ih
      { e with bloquesRecibidos := (e.bloquesRecibidos + 1) % U32,
               archivo := e.archivo ++ d.data,
               led := if (e.bloquesRecibidos + 1) % U32 % 4 = 0
                 then led_toggle e.led else e.led } resto
      (fun p hp => hd p (List.mem_cons_of_mem _ hp)) hh hf (Nat.mod_lt _ (by decide))
    refine ⟨led, ?_⟩
    rw [List.cons_append, recibir_bucle, procesar_data_en_sesion puede e d hd1 hh hf]
    simp only [hled, List.map_cons, List.flatten_cons, List.append_assoc, List.length_cons,
      Nat.mod_add_mod]
    congr 3
    omega

/-- Round trip as the code performs it. The receiver, fed the packets of a
complete transfer of the `S`-byte content `b` (`0 < S < 2^32`), with an output
path that can be opened, returns `true`; the stored file is `b` followed by
the padding of the last block (the FIN-time step does not shorten it), and the
counters are as shown. -/
theorem recibir_transmision (b a : List Nat) (led : Bool)
    (hpos : 0 < b.length) (hlt : b.length < U32) :
    recibir_archivo true a led (transmision b.length b) =
      .retorna true
        { headerRecibido := true, tamEsperado := b.length,
          bloquesEsperados := bloquesEsperadosDe b.length,
          bloquesRecibidos := (b.length + 26) / 27,
          fout := { abierto := false, falla := false },
          archivo := b ++ List.replicate (27 * ((b.length + 26) / 27) - b.length) 0,
          led := true } := by
  have hn : (b.length + 26) / 27 < U32 := by omega
  obtain ⟨l1, hl1⟩ := recibir_bucle_datos true
    (fragmentos 0 b ((b.length + 26) / 27))
    { headerRecibido := true, tamEsperado := b.length,
      bloquesEsperados := bloquesEsperadosDe b.length, bloquesRecibidos := 0,
      fout := { abierto := true, falla := false }, archivo := [], led := led_toggle led }
    [{ tipo := TIPO_FIN, seq := ((b.length + 26) / 27) % U32, data := ceros }]
    (fragmentos_tipo _ _ _) rfl rfl (show 0 < U32 by decide)
  simp only [recibir_archivo, transmision, Nat.min_self, recibir_bucle, estadoInicial]
  simp only [procesar, fout_open, Nat.mod_eq_of_lt hlt, if_true, Bool.false_eq_true, if_false,
    Bool.not_true]
  rw [hl1]
  simp only [recibir_bucle, procesar, fragmentos_length, Nat.zero_add, Nat.mod_eq_of_lt hn,
    List.nil_append, fragmentos_datos _ b 0 rfl, fout_close, truncFile_seekp, led_on]
  simp [TIPO_FIN, TIPO_HEADER, TIPO_DATA]

/-- Away from the top of the `uint32_t` range the block-count formula is
the ceiling: for `d + 26 < 2^32` nothing wraps. -/
theorem bloquesEsperadosDe_techo (d : Nat) (h : d + 26 < U32) :
    bloquesEsperadosDe d = ⌈(d : ℚ) / 27⌉₊ := by
  rw [techo27]
  simp only [bloquesEsperadosDe, DATA_BYTES, U32] at *
  omega

/-- Transfer of any content of `2^32 - 1` bytes: the sender emits 159072863
DATA packets and a FIN saying so, the receiver counts as many blocks, and its
expected count `bloquesEsperados` is 0. -/
theorem transferencia_desbordada (b : List Nat) (hb : b.length = 4294967295) :
    ∃ ds e,
      enviar_archivo siempre ⟨true, 4294967295, b⟩ false =
        some (true,
          { enviados :=
              { tipo := TIPO_HEADER, seq := 4294967295, data := ceros } ::
                (ds ++ [{ tipo := TIPO_FIN, seq := 159072863, data := ceros }]),
            led := true }) ∧
      ds.length = 159072863 ∧
      recibir_archivo true [] false
          ({ tipo := TIPO_HEADER, seq := 4294967295, data := ceros } ::
            (ds ++ [{ tipo := TIPO_FIN, seq := 159072863, data := ceros }])) =
        .retorna true e ∧
      e.bloquesRecibidos = 159072863 ∧ e.bloquesEsperados = 0 := by
  have hex := enviar_archivo_exito siempre ⟨true, 4294967295, b⟩ false rfl
    (by norm_num) (fun _ _ => rfl)
  have hrx := recibir_transmision b [] false (by omega) (by rw [hb]; decide)
  have ht : (4294967295 : Int).toNat = 4294967295 := rfl
  have hn : (4294967295 + 26) / 27 = 159072863 := by norm_num
  have hm1 : (4294967295 : Nat) % U32 = 4294967295 := by decide
  have hm2 : (159072863 : Nat) % U32 = 159072863 := by decide
  have he : bloquesEsperadosDe 4294967295 = 0 := by decide
  simp only [transmision, ht, hb, Nat.min_self, hn, hm1, hm2] at hex hrx
  refine ⟨fragmentos 0 b 159072863, _, hex, fragmentos_length _ _ _, hrx, ?_, ?_⟩
  · simp only [hn]
  · exact he

/-! ## Receiver claims -/

/-- C5. In a receiver state where no HEADER has been received, a DATA or FIN
packet (any `seq`, any payload) leaves the whole state unchanged (session
flag, declared size, both counters, stream, stored file, LED) and the loop of
`recibir_archivo` goes on without returning. -/
theorem C5_descarte_fuera_de_sesion (puede : Bool) (e : RxEstado) (p : Paquete)
    (hidle : e.headerRecibido = false)
    (hp : p.tipo = TIPO_DATA ∨ p.tipo = TIPO_FIN) :
    procesar puede e p = .sigue e := by
  rcases hp with hp | hp <;>
    simp [procesar, hp, hidle, TIPO_DATA, TIPO_FIN, TIPO_HEADER]

/-- A witness for C5: a stray FIN in front of the initial state. -/
theorem C5_descarte_fuera_de_sesion_witness :
    procesar true (estadoInicial [1, 2, 3] false)
        { tipo := TIPO_FIN, seq := 7, data := List.replicate 27 9 } =
      .sigue (estadoInicial [1, 2, 3] false) :=
  C5_descarte_fuera_de_sesion true (estadoInicial [1, 2, 3] false)
    { tipo := TIPO_FIN, seq := 7, data := List.replicate 27 9 } rfl (Or.inr rfl)

/-- C7 at the top of the range. For the declared size `d = 2^32 - 1` the sum
`d + 27` wraps: the receiver computes `bloquesEsperados = 0`, while
`ceil(d / 27)` is 159072863. -/
theorem C7_bloques_esperados_desborde :
    procesar true (estadoInicial [] false)
        { tipo := TIPO_HEADER, seq := 4294967295, data := List.replicate 27 0 } =
      .sigue { headerRecibido := true, tamEsperado := 4294967295, bloquesEsperados := 0,
               bloquesRecibidos := 0, fout := { abierto := true, falla := false },
               archivo := [], led := true } ∧
    ⌈(4294967295 : ℚ) / 27⌉₊ = 159072863 := by
  refine ⟨by decide, ?_⟩
  rw [Nat.ceil_eq_iff (by norm_num)]
  constructor <;> norm_num

/-- C10 at the top of the range. For a file of `2^32 - 1` zero bytes, every
send succeeding and the receiver processing exactly the sender's packets from
its initial state: the sender emits 159072863 DATA packets and FIN carries
that number, the receiver has counted 159072863 blocks at FIN, but its
expected fragment count is 0. -/
theorem C10_esperados_no_coinciden :
    ∃ ds e,
      enviar_archivo siempre ⟨true, 4294967295, List.replicate 4294967295 0⟩ false =
        some (true,
          { enviados :=
              { tipo := TIPO_HEADER, seq := 4294967295, data := ceros } ::
                (ds ++ [{ tipo := TIPO_FIN, seq := 159072863, data := ceros }]),
            led := true }) ∧
      ds.length = 159072863 ∧
      recibir_archivo true [] false
          ({ tipo := TIPO_HEADER, seq := 4294967295, data := ceros } ::
            (ds ++ [{ tipo := TIPO_FIN, seq := 159072863, data := ceros }])) =
        .retorna true e ∧
      e.bloquesRecibidos = 159072863 ∧ e.bloquesEsperados = 0 :=
  transferencia_desbordada (List.replicate 4294967295 0) (List.length_replicate _ _)

/-- C1 on a 28-byte file. Every send succeeds and the receiver gets exactly
the sender's packets (HEADER, two DATA, FIN): `recibir_archivo` returns
`true`, declared size 28, but the stored file is the 28 input bytes followed
by the 26 padding zeros of the second block, 54 bytes in all: the FIN-time
step leaves the length as it is. -/
theorem C1_salida_sin_truncar :
    enviar_archivo siempre ⟨true, 28, List.replicate 28 65⟩ false =
      some (true, { enviados := transmision 28 (List.replicate 28 65), led := true }) ∧
    (transmision 28 (List.replicate 28 65)).length = 4 ∧
    recibir_archivo true [] false (transmision 28 (List.replicate 28 65)) =
      .retorna true
        { headerRecibido := true, tamEsperado := 28, bloquesEsperados := 2,
          bloquesRecibidos := 2, fout := { abierto := false, falla := false },
          archivo := List.replicate 28 65 ++ List.replicate 26 0, led := true } ∧
    (List.replicate 28 65 ++ List.replicate 26 0 : List Nat).length = 54 ∧
    (List.replicate 28 65 ++ List.replicate 26 0 : List Nat) ≠ List.replicate 28 65 := by
  refine ⟨by decide, by decide, by decide, by decide, by decide⟩

/-- C6 on a concrete session. From the initial state a HEADER declaring 27
bytes opens an empty, writable sink. After that HEADER and one DATA block of
27 bytes `1`, the same HEADER resets the counters but finds `fout` already
open: the stream goes into the fail state and the stored block is not
removed. A following DATA block of 27 bytes `2` is then not written, and at
FIN the file still holds the 27 bytes `1` of the abandoned session. -/
theorem C6_header_en_sesion :
    procesar true (estadoInicial [] false)
        { tipo := TIPO_HEADER, seq := 27, data := List.replicate 27 0 } =
      .sigue { headerRecibido := true, tamEsperado := 27, bloquesEsperados := 1,
               bloquesRecibidos := 0, fout := { abierto := true, falla := false },
               archivo := [], led := true } ∧
    recibir_archivo true [] false
        [{ tipo := TIPO_HEADER, seq := 27, data := List.replicate 27 0 },
         { tipo := TIPO_DATA, seq := 0, data := List.replicate 27 1 }] =
      .espera { headerRecibido := true, tamEsperado := 27, bloquesEsperados := 1,
                bloquesRecibidos := 1, fout := { abierto := true, falla := false },
                archivo := List.replicate 27 1, led := true } ∧
    procesar true
        { headerRecibido := true, tamEsperado := 27, bloquesEsperados := 1,
          bloquesRecibidos := 1, fout := { abierto := true, falla := false },
          archivo := List.replicate 27 1, led := true }
        { tipo := TIPO_HEADER, seq := 27, data := List.replicate 27 0 } =
      .sigue { headerRecibido := true, tamEsperado := 27, bloquesEsperados := 1,
               bloquesRecibidos := 0, fout := { abierto := true, falla := true },
               archivo := List.replicate 27 1, led := false } ∧
    recibir_archivo true [] false
        [{ tipo := TIPO_HEADER, seq := 27, data := List.replicate 27 0 },
         { tipo := TIPO_DATA, seq := 0, data := List.replicate 27 1 },
         { tipo := TIPO_HEADER, seq := 27, data := List.replicate 27 0 },
         { tipo := TIPO_DATA, seq := 0, data := List.replicate 27 2 },
         { tipo := TIPO_FIN, seq := 1, data := List.replicate 27 0 }] =
      .retorna true
        { headerRecibido := true, tamEsperado := 27, bloquesEsperados := 1,
          bloquesRecibidos := 1, fout := { abierto := false, falla := true },
          archivo := List.replicate 27 1, led := true } := by
  refine ⟨by decide, by decide, by decide, by decide⟩

/-- C8 on a concrete session state. After two HEADER packets in a row the
receiver is in session (`headerRecibido`), with `fout` open but in the fail
state. A DATA packet processed there advances `bloquesRecibidos` from 0 to 1
and leaves the other fields alone, but none of its 27 payload bytes reaches
the sink: the stored file is empty before and after. -/
theorem C8_data_sin_escribir :
    recibir_archivo true [] false
        [{ tipo := TIPO_HEADER, seq := 27, data := List.replicate 27 0 },
         { tipo := TIPO_HEADER, seq := 27, data := List.replicate 27 0 }] =
      .espera { headerRecibido := true, tamEsperado := 27, bloquesEsperados := 1,
                bloquesRecibidos := 0, fout := { abierto := true, falla := true },
                archivo := [], led := false } ∧
    procesar true
        { headerRecibido := true, tamEsperado := 27, bloquesEsperados := 1,
          bloquesRecibidos := 0, fout := { abierto := true, falla := true },
          archivo := [], led := false }
        { tipo := TIPO_DATA, seq := 0, data := List.replicate 27 65 } =
      .sigue { headerRecibido := true, tamEsperado := 27, bloquesEsperados := 1,
               bloquesRecibidos := 1, fout := { abierto := true, falla := true },
               archivo := [], led := false } := by
  refine ⟨by decide, by decide⟩

end Ie0527
